import Mathlib

/-!
Verification of the Furniture-Mart backend admin-authentication subsystem.

The definitions below are a shallow embedding of the TypeScript source:
  - src/src/models/AdminUser.ts      (account schema, pre-save hashing hook)
  - src/src/utils/jwt.ts             (token issuance and verification)
  - src/src/middleware/auth.ts       (login / refresh / google routes)
  - src/middleware/rateLimiter.ts    (per-address rate limiting)
Timestamps are modelled as natural numbers of milliseconds.  The bcrypt and
HMAC-JWT primitives (external npm libraries) are modelled as ideal,
collision-free constructions: a digest records the hashed value and its salt,
a signed token records its payload, signing secret and expiry; verification
compares the secret and the clock exactly as the libraries do.
-/

namespace FurnitureMart

/-- Admin role enumeration from the AdminUser schema. -/
inductive Role where
  | admin
  | editor
  | viewer
deriving DecidableEq, Repr

/-- Model of bcrypt strings: either a raw (plaintext) string value or a
digest produced by bcrypt.hash over some stored value with a salt. -/
inductive BcryptStr where
  | raw (s : String)
  | digest (inner : BcryptStr) (salt : Nat)
deriving DecidableEq, Repr

/-- Model of bcrypt.compare: succeeds exactly when the stored value is a
single digest of the given plaintext (bcrypt is modelled collision-free). -/
def bcryptCompare (plain : String) (stored : BcryptStr) : Bool :=
  match stored with
  | BcryptStr.digest (BcryptStr.raw s) _ => plain == s
  | _ => false

/-- Admin account record, the persisted fields of the AdminUser schema. -/
structure AdminAccount where
  id : String
  name : String
  email : String
  password : BcryptStr
  role : Role
  isActive : Bool
  lastLogin : Option Nat
  loginAttempts : Nat
  isLocked : Bool
  lockedUntil : Option Nat
deriving DecidableEq, Repr

/-- JWT payload shape from src/src/utils/jwt.ts (AdminAuthPayload). -/
structure AdminAuthPayload where
  adminId : String
  email : String
  role : Role
deriving DecidableEq, Repr

/-- Model of a JSON web token: a well-formed signed token carries its
payload, the secret it was signed with, issue time and expiry; anything
else (garbage input, truncated token) is malformed. -/
inductive Jwt where
  | signed (payload : AdminAuthPayload) (secret : String) (iat exp : Nat)
  | malformed (raw : String)
deriving DecidableEq, Repr

/-- Access-token signing secret (default in src/src/utils/jwt.ts). -/
def JWT_SECRET : String := "furniture-mart-secret-key-2024"

/-- Refresh-token signing secret (default in src/src/utils/jwt.ts). -/
def REFRESH_TOKEN_SECRET : String := "furniture-mart-refresh-secret-key"

/-- Access-token lifetime: 24 hours (in milliseconds here). -/
def JWT_EXPIRY_MS : Nat := 24 * 60 * 60 * 1000

/-- Refresh-token lifetime: 7 days (in milliseconds here). -/
def REFRESH_TOKEN_EXPIRY_MS : Nat := 7 * 24 * 60 * 60 * 1000

/-- Model of jwt.sign with an expiresIn option, at clock time now. -/
def jwtSign (payload : AdminAuthPayload) (secret : String) (now expiresInMs : Nat) : Jwt :=
  Jwt.signed payload secret now (now + expiresInMs)

/-- Model of jwt.verify at clock time now: the secret must match and the
token must not be expired, otherwise the library throws and the callers
in src/src/utils/jwt.ts catch and return null (here: none). -/
def jwtVerify (t : Jwt) (secret : String) (now : Nat) : Option AdminAuthPayload :=
  match t with
  | Jwt.malformed _ => none
  | Jwt.signed p s _ exp => if s = secret ∧ now < exp then some p else none

/-- generateAccessToken from src/src/utils/jwt.ts. -/
def generateAccessToken (adminId email : String) (role : Role) (now : Nat) : Jwt :=
  jwtSign ⟨adminId, email, role⟩ JWT_SECRET now JWT_EXPIRY_MS

/-- generateRefreshToken from src/src/utils/jwt.ts. -/
def generateRefreshToken (adminId email : String) (role : Role) (now : Nat) : Jwt :=
  jwtSign ⟨adminId, email, role⟩ REFRESH_TOKEN_SECRET now REFRESH_TOKEN_EXPIRY_MS

/-- verifyAccessToken from src/src/utils/jwt.ts: returns none (null) on
any verification failure, never propagates an exception. -/
def verifyAccessToken (t : Jwt) (now : Nat) : Option AdminAuthPayload :=
  jwtVerify t JWT_SECRET now

/-- verifyRefreshToken from src/src/utils/jwt.ts. -/
def verifyRefreshToken (t : Jwt) (now : Nat) : Option AdminAuthPayload :=
  jwtVerify t REFRESH_TOKEN_SECRET now

/-- A token input on which access-token verification must fail: it is
malformed, signed with a different secret, or already expired. -/
def accessVerifyFailure (t : Jwt) (now : Nat) : Prop :=
  match t with
  | Jwt.malformed _ => True
  | Jwt.signed _ s _ exp => s ≠ JWT_SECRET ∨ exp ≤ now

/-- A token input on which refresh-token verification must fail. -/
def refreshVerifyFailure (t : Jwt) (now : Nat) : Prop :=
  match t with
  | Jwt.malformed _ => True
  | Jwt.signed _ s _ exp => s ≠ REFRESH_TOKEN_SECRET ∨ exp ≤ now

/-- C5: verifying a freshly generated access token before its 24-hour
expiry returns a payload whose adminId, email and role equal the inputs. -/
theorem accessToken_roundtrip (adminId email : String) (role : Role)
    (tIssue tVerify : Nat) (hfresh : tVerify < tIssue + JWT_EXPIRY_MS) :
    verifyAccessToken (generateAccessToken adminId email role tIssue) tVerify
      = some ⟨adminId, email, role⟩ := by
  simp [verifyAccessToken, generateAccessToken, jwtSign, jwtVerify, hfresh]

/-- Witness for C5 at concrete inputs. -/
theorem accessToken_roundtrip_witness :
    verifyAccessToken (generateAccessToken "id1" "a@b.co" Role.editor 1000) 5000
      = some ⟨"id1", "a@b.co", Role.editor⟩ :=
  accessToken_roundtrip "id1" "a@b.co" Role.editor 1000 5000 (by decide)

/-- C6: verifyAccessToken and verifyRefreshToken return none (null), not
an exception, on every verification failure: malformed token, wrong
signing secret, or a token observed at or after its expiry. -/
theorem verify_none_on_failure :
    (∀ (t : Jwt) (now : Nat), accessVerifyFailure t now →
        verifyAccessToken t now = none)
    ∧ (∀ (t : Jwt) (now : Nat), refreshVerifyFailure t now →
        verifyRefreshToken t now = none) := by
  constructor
  · intro t now h
    cases t with
    | malformed raw => simp [verifyAccessToken, jwtVerify]
    | signed p s iat exp =>
        simp only [accessVerifyFailure] at h
        simp only [verifyAccessToken, jwtVerify, ite_eq_right_iff]
        intro hcond
        rcases h with h | h
        · exact absurd hcond.1 h
        · omega
  · intro t now h
    cases t with
    | malformed raw => simp [verifyRefreshToken, jwtVerify]
    | signed p s iat exp =>
        simp only [refreshVerifyFailure] at h
        simp only [verifyRefreshToken, jwtVerify, ite_eq_right_iff]
        intro hcond
        rcases h with h | h
        · exact absurd hcond.1 h
        · omega

/-- Witness for C6: an access token verified after its nominal 24-hour
expiry yields none, not an exception. -/
theorem verify_none_on_failure_witness :
    verifyAccessToken (generateAccessToken "id9" "x@y.co" Role.admin 0) JWT_EXPIRY_MS
      = none :=
  verify_none_on_failure.1
    (generateAccessToken "id9" "x@y.co" Role.admin 0) JWT_EXPIRY_MS (by right; simp [JWT_EXPIRY_MS])

/-! ## Rate limiter (src/middleware/rateLimiter.ts) -/

/-- One entry of the in-memory rate-limit store. -/
structure RateLimitEntry where
  attempts : Nat
  resetTime : Nat
deriving DecidableEq, Repr

/-- The in-memory store keyed by client address, a JS object modelled as
an association list with unique keys. -/
def RateLimitStore : Type := List (String × RateLimitEntry)

/-- Reading loginAttempts[ip]. -/
def lookupEntry (s : List (String × RateLimitEntry)) (ip : String) : Option RateLimitEntry :=
  match s with
  | [] => none
  | (k, e) :: rest => if k = ip then some e else lookupEntry rest ip

/-- Writing loginAttempts[ip] = e. -/
def setEntry (s : List (String × RateLimitEntry)) (ip : String) (e : RateLimitEntry) :
    List (String × RateLimitEntry) :=
  match s with
  | [] => [(ip, e)]
  | (k, e0) :: rest => if k = ip then (k, e) :: rest else (k, e0) :: setEntry rest ip e

/-- delete loginAttempts[ip]. -/
def removeEntry (s : List (String × RateLimitEntry)) (ip : String) :
    List (String × RateLimitEntry) :=
  match s with
  | [] => []
  | (k, e0) :: rest => if k = ip then removeEntry rest ip else (k, e0) :: removeEntry rest ip

/-- Outcome of the rate-limit middleware: either the request is passed to
the downstream handler (next) or it is answered 429 with the remaining
window time in minutes and the downstream logic never runs. -/
inductive RateDecision where
  | next
  | tooMany (remainingMinutes : Nat)
deriving DecidableEq, Repr

/-- HTTP status produced by the middleware itself (none when it calls
through to the downstream handler). -/
def RateDecision.status : RateDecision → Option Nat
  | RateDecision.next => none
  | RateDecision.tooMany _ => some 429

/-- True when the middleware passed the request downstream. -/
def RateDecision.isNext : RateDecision → Bool
  | RateDecision.next => true
  | RateDecision.tooMany _ => false

/-- Default window: 15 minutes in milliseconds. -/
def RATE_WINDOW_MS : Nat := 15 * 60 * 1000

/-- Default cap: 10 requests per window. -/
def RATE_MAX : Nat := 10

/-- rateLimitMiddleware from src/middleware/rateLimiter.ts, one request
from ip at clock time now: expired entries are lazily dropped, a first
request installs attempts = 1, otherwise the counter is incremented and
the request is rejected when it exceeds maxRequests.  Math.ceil of the
remaining window over minutes is (r - now + 59999) / 60000. -/
def rateLimitMiddleware (windowMs maxRequests : Nat)
    (store : List (String × RateLimitEntry)) (ip : String) (now : Nat) :
    RateDecision × List (String × RateLimitEntry) :=
  let store1 :=
    match lookupEntry store ip with
    | some e => if e.resetTime < now then removeEntry store ip else store
    | none => store
  match lookupEntry store1 ip with
  | none => (RateDecision.next, setEntry store1 ip ⟨1, now + windowMs⟩)
  | some e =>
    let e1 : RateLimitEntry := ⟨e.attempts + 1, e.resetTime⟩
    let store2 := setEntry store1 ip e1
    if e1.attempts > maxRequests then
      (RateDecision.tooMany ((e.resetTime - now + 59999) / 60000), store2)
    else
      (RateDecision.next, store2)

/-- clearRateLimit from src/middleware/rateLimiter.ts. -/
def clearRateLimit (store : List (String × RateLimitEntry)) (ip : Option String) :
    List (String × RateLimitEntry) :=
  match ip with
  | none => store
  | some ip => removeEntry store ip

/-- A sequence of requests from one address at the given clock times,
through the middleware with the default window and cap. -/
def processRequests (ip : String) (ts : List Nat)
    (store : List (String × RateLimitEntry)) :
    List RateDecision × List (String × RateLimitEntry) :=
  match ts with
  | [] => ([], store)
  | t :: rest =>
    let r1 := rateLimitMiddleware RATE_WINDOW_MS RATE_MAX store ip t
    let r2 := processRequests ip rest r1.2
    (r1.1 :: r2.1, r2.2)

lemma lookupEntry_setEntry_self (s : List (String × RateLimitEntry)) (ip : String)
    (e : RateLimitEntry) : lookupEntry (setEntry s ip e) ip = some e := by
  induction s with
  | nil => simp [setEntry, lookupEntry]
  | cons p rest ih =>
      obtain ⟨k, e0⟩ := p
      by_cases hk : k = ip
      · simp [setEntry, lookupEntry, hk]
      · simp [setEntry, lookupEntry, hk, ih]

lemma lookupEntry_setEntry_ne (s : List (String × RateLimitEntry)) (ip ip2 : String)
    (e : RateLimitEntry) (h : ip2 ≠ ip) :
    lookupEntry (setEntry s ip e) ip2 = lookupEntry s ip2 := by
  have h2 : ip ≠ ip2 := h.symm
  induction s with
  | nil => simp [setEntry, lookupEntry, h2]
  | cons p rest ih =>
      obtain ⟨k, e0⟩ := p
      by_cases hk : k = ip
      · subst hk
        simp [setEntry, lookupEntry, h2]
      · simp only [setEntry, if_neg hk]
        by_cases hk2 : k = ip2
        · simp [lookupEntry, hk2]
        · simp [lookupEntry, hk2, ih]

/-- One in-window request from ip whose entry holds count k: the counter
becomes k+1 and the request passes iff k+1 is within the cap. -/
lemma rateLimitMiddleware_step (store : List (String × RateLimitEntry)) (ip : String)
    (k r now : Nat) (hl : lookupEntry store ip = some ⟨k, r⟩) (hwin : now ≤ r) :
    rateLimitMiddleware RATE_WINDOW_MS RATE_MAX store ip now
      = (if k + 1 > RATE_MAX then RateDecision.tooMany ((r - now + 59999) / 60000)
         else RateDecision.next,
         setEntry store ip ⟨k + 1, r⟩) := by
  have hnot : ¬ (RateLimitEntry.mk k r).resetTime < now := by simp; omega
  simp only [rateLimitMiddleware, hl, hnot, if_false]
  by_cases hcap : k + 1 > RATE_MAX
  · simp [hcap]
  · simp [hcap]

/-- Running a sequence of in-window requests from an entry with count k:
the pass/reject pattern, the final counter and the other keys. -/
lemma processRequests_run (ip : String) (r : Nat) :
    ∀ (ts : List Nat) (k : Nat) (store : List (String × RateLimitEntry)),
      lookupEntry store ip = some ⟨k, r⟩ →
      (∀ t ∈ ts, t ≤ r) →
      ((processRequests ip ts store).1.map RateDecision.isNext
          = (List.range ts.length).map (fun i => decide (k + i + 1 ≤ RATE_MAX)))
      ∧ lookupEntry (processRequests ip ts store).2 ip = some ⟨k + ts.length, r⟩
      ∧ ∀ ip2, ip2 ≠ ip →
          lookupEntry (processRequests ip ts store).2 ip2 = lookupEntry store ip2 := by
  intro ts
  induction ts with
  | nil =>
      intro k store hl hin
      simp [processRequests, hl]
  | cons t rest ih =>
      intro k store hl hin
      have ht : t ≤ r := hin t (by simp)
      have hstep := rateLimitMiddleware_step store ip k r t hl ht
      have hl1 : lookupEntry (setEntry store ip ⟨k + 1, r⟩) ip = some ⟨k + 1, r⟩ :=
        lookupEntry_setEntry_self store ip _
      have hrest : ∀ t2 ∈ rest, t2 ≤ r := fun t2 h2 => hin t2 (by simp [h2])
      obtain ⟨ih1, ih2, ih3⟩ := ih (k + 1) (setEntry store ip ⟨k + 1, r⟩) hl1 hrest
      refine ⟨?_, ?_, ?_⟩
      · simp only [processRequests, hstep, List.map_cons, List.length_cons,
          List.range_succ_eq_map, List.map_map]
        refine congrArg₂ List.cons ?_ ?_
        · by_cases hcap : k + 1 > RATE_MAX
          · rw [if_pos hcap]
            simp only [RateDecision.isNext]
            symm
            rw [decide_eq_false_iff_not]
            omega
          · rw [if_neg hcap]
            simp only [RateDecision.isNext]
            symm
            rw [decide_eq_true_eq]
            omega
        · rw [ih1]
          apply List.map_congr_left
          intro i _
          simp only [Function.comp_apply]
          have harith : k + 1 + i + 1 = k + Nat.succ i + 1 := by omega
          rw [harith]
      · simp only [processRequests, hstep]
        have harith2 : k + 1 + rest.length = k + (rest.length + 1) := by omega
        rw [ih2, harith2]
        simp
      · intro ip2 hne
        simp only [processRequests, hstep]
        rw [ih3 ip2 hne, lookupEntry_setEntry_ne store ip ip2 _ hne]

/-- C4: from a fresh store, the first 10 requests from one address within
the default 15-minute window pass the limiter, the 11th is rejected with
429, and a request from a different address against the resulting store
still passes (state is keyed per address). -/
theorem rateLimit_window_per_address (ip ip2 : String) (t0 t2 : Nat) (rest : List Nat)
    (hlen : rest.length = 10)
    (hin : ∀ t ∈ rest, t ≤ t0 + RATE_WINDOW_MS)
    (hne : ip2 ≠ ip) :
    ((processRequests ip (t0 :: rest) []).1.map RateDecision.isNext
        = List.replicate 10 true ++ [false])
    ∧ ((processRequests ip (t0 :: rest) []).1.getLast?.map RateDecision.status
        = some (some 429))
    ∧ (rateLimitMiddleware RATE_WINDOW_MS RATE_MAX
          (processRequests ip (t0 :: rest) []).2 ip2 t2).1 = RateDecision.next := by
  have hstep0 : rateLimitMiddleware RATE_WINDOW_MS RATE_MAX [] ip t0
      = (RateDecision.next, [(ip, ⟨1, t0 + RATE_WINDOW_MS⟩)]) := by
    simp [rateLimitMiddleware, lookupEntry, setEntry]
  have hl1 : lookupEntry [(ip, ⟨1, t0 + RATE_WINDOW_MS⟩)] ip
      = some ⟨1, t0 + RATE_WINDOW_MS⟩ := by simp [lookupEntry]
  obtain ⟨h1, h2, h3⟩ := processRequests_run ip (t0 + RATE_WINDOW_MS) rest 1
    [(ip, ⟨1, t0 + RATE_WINDOW_MS⟩)] hl1 hin
  have hmap : (processRequests ip (t0 :: rest) []).1
      = RateDecision.next :: (processRequests ip rest [(ip, ⟨1, t0 + RATE_WINDOW_MS⟩)]).1 := by
    simp only [processRequests, hstep0]
  have hsnd : (processRequests ip (t0 :: rest) []).2
      = (processRequests ip rest [(ip, ⟨1, t0 + RATE_WINDOW_MS⟩)]).2 := by
    simp only [processRequests, hstep0]
  refine ⟨?_, ?_, ?_⟩
  · rw [hmap, List.map_cons, h1, hlen]
    decide
  · have hall : ((processRequests ip (t0 :: rest) []).1.map RateDecision.isNext)
        = List.replicate 10 true ++ [false] := by
      rw [hmap, List.map_cons, h1, hlen]
      decide
    have hlastmap : ((processRequests ip (t0 :: rest) []).1.map RateDecision.isNext).getLast?
        = some false := by rw [hall]; decide
    rw [List.getLast?_map] at hlastmap
    cases hl2 : (processRequests ip (t0 :: rest) []).1.getLast? with
    | none => rw [hl2] at hlastmap; simp at hlastmap
    | some d =>
        rw [hl2] at hlastmap
        simp only [Option.map_some'] at hlastmap
        cases d with
        | next => simp [RateDecision.isNext] at hlastmap
        | tooMany m => simp [RateDecision.status]
  · have hnone : lookupEntry (processRequests ip (t0 :: rest) []).2 ip2 = none := by
      rw [hsnd, h3 ip2 hne]
      simp [lookupEntry, hne.symm]
    simp [rateLimitMiddleware, hnone]

/-- Witness for C4 at concrete inputs: 11 requests from address a at
time 0, then one request from address b. -/
theorem rateLimit_window_per_address_witness :
    ((processRequests "a" (0 :: List.replicate 10 0) []).1.map RateDecision.isNext
        = List.replicate 10 true ++ [false])
    ∧ ((processRequests "a" (0 :: List.replicate 10 0) []).1.getLast?.map RateDecision.status
        = some (some 429))
    ∧ (rateLimitMiddleware RATE_WINDOW_MS RATE_MAX
          (processRequests "a" (0 :: List.replicate 10 0) []).2 "b" 0).1 = RateDecision.next :=
  rateLimit_window_per_address "a" "b" 0 0 (List.replicate 10 0)
    (by simp)
    (by
      intro t ht
      have := List.eq_of_mem_replicate ht
      omega)
    (by decide)

/-- Counterexample for C3: an address already beyond the cap (11 recorded
attempts against a cap of 10, window still open) sends one more request;
the code increments the stored counter to 12 while rejecting with 429,
so the attempt counter IS incremented further, contrary to the claim. -/
theorem rateLimit_counter_incremented_cex :
    rateLimitMiddleware RATE_WINDOW_MS RATE_MAX
        [("a", ⟨11, 900000⟩)] "a" 0
      = (RateDecision.tooMany 15, [("a", ⟨12, 900000⟩)]) := by
  decide

/-- C3 amended: once an address is over the cap within the open window,
each further request is rejected with 429 carrying the remaining window
time in minutes (ceil) and never reaches the downstream handler, but the
stored attempt counter is still incremented by each such request. -/
theorem rateLimit_exceeded_rejects (windowMs maxRequests : Nat)
    (store : List (String × RateLimitEntry)) (ip : String) (now : Nat)
    (e : RateLimitEntry) (hl : lookupEntry store ip = some e)
    (hwin : ¬ e.resetTime < now) (hex : e.attempts > maxRequests) :
    rateLimitMiddleware windowMs maxRequests store ip now
      = (RateDecision.tooMany ((e.resetTime - now + 59999) / 60000),
         setEntry store ip ⟨e.attempts + 1, e.resetTime⟩)
    ∧ (rateLimitMiddleware windowMs maxRequests store ip now).1.status = some 429 := by
  have hcap : e.attempts + 1 > maxRequests := by omega
  have hmain : rateLimitMiddleware windowMs maxRequests store ip now
      = (RateDecision.tooMany ((e.resetTime - now + 59999) / 60000),
         setEntry store ip ⟨e.attempts + 1, e.resetTime⟩) := by
    simp [rateLimitMiddleware, hl, hwin, hcap]
  exact ⟨hmain, by rw [hmain]; rfl⟩

/-- Witness for the amended C3 at concrete inputs. -/
theorem rateLimit_exceeded_rejects_witness :
    rateLimitMiddleware RATE_WINDOW_MS RATE_MAX
        [("b", ⟨12, 600000⟩)] "b" 60000
      = (RateDecision.tooMany 9, [("b", ⟨13, 600000⟩)])
    ∧ (rateLimitMiddleware RATE_WINDOW_MS RATE_MAX
        [("b", ⟨12, 600000⟩)] "b" 60000).1.status = some 429 :=
  rateLimit_exceeded_rejects RATE_WINDOW_MS RATE_MAX
    [("b", ⟨12, 600000⟩)] "b" 60000 ⟨12, 600000⟩ (by decide) (by decide) (by decide)

/-! ## Login route (router.post("/login") in src/src/middleware/auth.ts) -/

/-- Lockout threshold: 5 failed attempts. -/
def LOCK_LIMIT : Nat := 5

/-- Lock duration: 15 minutes in milliseconds. -/
def LOCK_DURATION_MS : Nat := 15 * 60 * 1000

/-- Math.ceil((u - now) / 1000 / 60), the remaining lock time in minutes. -/
def remainingLockMinutes (u now : Nat) : Nat := (u - now + 59999) / 60000

/-- Outcome of one login request (the HTTP response the handler sends). -/
inductive LoginOutcome where
  | userNotFound
  | accountInactive
  | accountLocked (remainingMinutes : Nat)
  | lockedAfterFailures
  | invalidPassword (attemptsRemaining : Nat)
  | loginSuccess (accessToken refreshToken : Jwt)
deriving DecidableEq, Repr

/-- HTTP status of each login outcome, as sent by the handler. -/
def LoginOutcome.status : LoginOutcome → Nat
  | LoginOutcome.userNotFound => 401
  | LoginOutcome.accountInactive => 403
  | LoginOutcome.accountLocked _ => 423
  | LoginOutcome.lockedAfterFailures => 423
  | LoginOutcome.invalidPassword _ => 401
  | LoginOutcome.loginSuccess _ _ => 200

/-- The lock check of the login handler: a locked account with
lockedUntil still in the future is rejected 423 with the remaining
minutes; otherwise an observed expired (or absent) lock is lazily
cleared in memory before the password check continues. -/
def lockGate (a : AdminAccount) (now : Nat) : LoginOutcome ⊕ AdminAccount :=
  if a.isLocked then
    match a.lockedUntil with
    | some u =>
      if now < u then Sum.inl (LoginOutcome.accountLocked (remainingLockMinutes u now))
      else Sum.inr { a with isLocked := false, lockedUntil := none, loginAttempts := 0 }
    | none => Sum.inr { a with isLocked := false, lockedUntil := none, loginAttempts := 0 }
  else Sum.inr a

/-- The login handler body after request validation, for the account
found at the given email (none when no account matches), at clock time
now.  Returns the response outcome and the account state as persisted
by the handler (unchanged on the paths that do not save). -/
def login (admin? : Option AdminAccount) (password : String) (now : Nat) :
    LoginOutcome × Option AdminAccount :=
  match admin? with
  | none => (LoginOutcome.userNotFound, none)
  | some a0 =>
    if a0.isActive = false then (LoginOutcome.accountInactive, some a0)
    else
      match lockGate a0 now with
      | Sum.inl out => (out, some a0)
      | Sum.inr a =>
        if bcryptCompare password a.password = false then
          let attempts := a.loginAttempts + 1
          if attempts ≥ LOCK_LIMIT then
            (LoginOutcome.lockedAfterFailures,
             some { a with loginAttempts := attempts, isLocked := true,
                           lockedUntil := some (now + LOCK_DURATION_MS) })
          else
            (LoginOutcome.invalidPassword (LOCK_LIMIT - attempts),
             some { a with loginAttempts := attempts })
        else
          (LoginOutcome.loginSuccess (generateAccessToken a.id a.email a.role now)
                                     (generateRefreshToken a.id a.email a.role now),
           some { a with loginAttempts := 0, lastLogin := some now })

/-- A sequence of login requests against the same account record, each
given as a password and a clock time. -/
def loginChain (admin? : Option AdminAccount) :
    List (String × Nat) → List LoginOutcome × Option AdminAccount
  | [] => ([], admin?)
  | (p, t) :: rest =>
    let r := login admin? p t
    let r2 := loginChain r.2 rest
    (r.1 :: r2.1, r2.2)

/-- A wrong-password attempt below the threshold: 401 with the remaining
attempts, and only loginAttempts is incremented. -/
lemma login_wrong_below (a : AdminAccount) (p : String) (t : Nat)
    (hact : a.isActive = true) (hlock : a.isLocked = false)
    (hpw : bcryptCompare p a.password = false)
    (hlt : a.loginAttempts + 1 < LOCK_LIMIT) :
    login (some a) p t =
      (LoginOutcome.invalidPassword (LOCK_LIMIT - (a.loginAttempts + 1)),
       some { a with loginAttempts := a.loginAttempts + 1 }) := by
  have hge : ¬ a.loginAttempts + 1 ≥ LOCK_LIMIT := by omega
  simp [login, lockGate, hact, hlock, hpw, hge]

/-- The wrong-password attempt that reaches the threshold: the handler
locks the account for 15 minutes and answers 423. -/
lemma login_wrong_reaching (a : AdminAccount) (p : String) (t : Nat)
    (hact : a.isActive = true) (hlock : a.isLocked = false)
    (hpw : bcryptCompare p a.password = false)
    (hge : a.loginAttempts + 1 ≥ LOCK_LIMIT) :
    login (some a) p t =
      (LoginOutcome.lockedAfterFailures,
       some { a with loginAttempts := a.loginAttempts + 1, isLocked := true,
                     lockedUntil := some (t + LOCK_DURATION_MS) }) := by
  simp [login, lockGate, hact, hlock, hpw, hge]

/-- C1: from a fresh unlocked account state, five consecutive
wrong-password attempts answer 401 four times then 423, leaving
isLocked = true and lockedUntil = (time of 5th attempt) + 15 minutes;
and every further attempt while lockedUntil is in the future -- with any
password, the correct one included -- is rejected 423 and leaves the
account state untouched. -/
theorem login_lockout_after_five_failures (a0 : AdminAccount)
    (p1 p2 p3 p4 p5 : String) (t1 t2 t3 t4 t5 : Nat)
    (hact : a0.isActive = true) (hlock : a0.isLocked = false)
    (hatt : a0.loginAttempts = 0)
    (hw : ∀ p ∈ [p1, p2, p3, p4, p5], bcryptCompare p a0.password = false) :
    (loginChain (some a0) [(p1, t1), (p2, t2), (p3, t3), (p4, t4), (p5, t5)]).1.map
        LoginOutcome.status = [401, 401, 401, 401, 423]
    ∧ (loginChain (some a0) [(p1, t1), (p2, t2), (p3, t3), (p4, t4), (p5, t5)]).2
        = some { a0 with loginAttempts := 5, isLocked := true,
                         lockedUntil := some (t5 + LOCK_DURATION_MS) }
    ∧ ∀ (p6 : String) (t6 : Nat), t6 < t5 + LOCK_DURATION_MS →
        (login (some { a0 with loginAttempts := 5, isLocked := true,
                               lockedUntil := some (t5 + LOCK_DURATION_MS) }) p6 t6)
          = (LoginOutcome.accountLocked
               (remainingLockMinutes (t5 + LOCK_DURATION_MS) t6),
             some { a0 with loginAttempts := 5, isLocked := true,
                            lockedUntil := some (t5 + LOCK_DURATION_MS) }) := by
  have hp1 := hw p1 (by simp)
  have hp2 := hw p2 (by simp)
  have hp3 := hw p3 (by simp)
  have hp4 := hw p4 (by simp)
  have hp5 := hw p5 (by simp)
  have s1 := login_wrong_below a0 p1 t1 hact hlock hp1 (by rw [hatt]; decide)
  rw [hatt] at s1
  set a1 : AdminAccount := { a0 with loginAttempts := 0 + 1 } with ha1
  have s2 := login_wrong_below a1 p2 t2 hact hlock hp2 (by simp [ha1]; decide)
  set a2 : AdminAccount := { a1 with loginAttempts := a1.loginAttempts + 1 } with ha2
  have s3 := login_wrong_below a2 p3 t3 hact hlock hp3 (by simp [ha2, ha1]; decide)
  set a3 : AdminAccount := { a2 with loginAttempts := a2.loginAttempts + 1 } with ha3
  have s4 := login_wrong_below a3 p4 t4 hact hlock hp4 (by simp [ha3, ha2, ha1]; decide)
  set a4 : AdminAccount := { a3 with loginAttempts := a3.loginAttempts + 1 } with ha4
  have s5 := login_wrong_reaching a4 p5 t5 hact hlock hp5 (by simp [ha4, ha3, ha2, ha1]; decide)
  refine ⟨?_, ?_, ?_⟩
  · simp [loginChain, s1, s2, s3, s4, s5, LoginOutcome.status]
  · simp only [loginChain, s1, s2, s3, s4, s5]
  · intro p6 t6 hfut
    simp [login, lockGate, hact, hfut]

/-- Witness for C1 at a concrete account and concrete attempt times. -/
theorem login_lockout_after_five_failures_witness :
    (loginChain (some
        { id := "i", name := "n", email := "e@f.co",
          password := BcryptStr.digest (BcryptStr.raw "hunter22") 7,
          role := Role.admin, isActive := true, lastLogin := none,
          loginAttempts := 0, isLocked := false, lockedUntil := none })
        [("x", 10), ("x", 20), ("x", 30), ("x", 40), ("x", 50)]).1.map
      LoginOutcome.status = [401, 401, 401, 401, 423] :=
  (login_lockout_after_five_failures
    { id := "i", name := "n", email := "e@f.co",
      password := BcryptStr.digest (BcryptStr.raw "hunter22") 7,
      role := Role.admin, isActive := true, lastLogin := none,
      loginAttempts := 0, isLocked := false, lockedUntil := none }
    "x" "x" "x" "x" "x" 10 20 30 40 50 rfl rfl rfl
    (by intro p hp; simp at hp; subst hp; decide)).1

/-- C2: a locked account whose lockedUntil has passed gets the lock
cleared in the same request, and a correct password then succeeds,
persisting loginAttempts = 0, isLocked = false, lockedUntil = null and a
fresh lastLogin, and issuing both tokens. -/
theorem login_lock_expiry_reset (a : AdminAccount) (pw : String) (now u : Nat)
    (hact : a.isActive = true) (hlock : a.isLocked = true)
    (hu : a.lockedUntil = some u) (hpast : u ≤ now)
    (hpw : bcryptCompare pw a.password = true) :
    (login (some a) pw now =
      (LoginOutcome.loginSuccess (generateAccessToken a.id a.email a.role now)
                                 (generateRefreshToken a.id a.email a.role now),
       some { a with isLocked := false, lockedUntil := none,
                     loginAttempts := 0, lastLogin := some now }))
    ∧ (∀ pw2 : String, ∃ out a2, login (some a) pw2 now = (out, some a2)
        ∧ a2.isLocked = false ∧ a2.lockedUntil = none ∧ a2.loginAttempts ≤ 1) := by
  have hnotfut : ¬ now < u := by omega
  constructor
  · simp [login, lockGate, hact, hlock, hu, hnotfut, hpw]
  · intro pw2
    by_cases hpw2 : bcryptCompare pw2 a.password = false
    · refine ⟨LoginOutcome.invalidPassword (LOCK_LIMIT - 1),
        { a with isLocked := false, lockedUntil := none, loginAttempts := 1 },
        ?_, rfl, rfl, by simp⟩
      simp [login, lockGate, hact, hlock, hu, hnotfut, hpw2, LOCK_LIMIT]
    · refine ⟨LoginOutcome.loginSuccess (generateAccessToken a.id a.email a.role now)
          (generateRefreshToken a.id a.email a.role now),
        { a with isLocked := false, lockedUntil := none,
                 loginAttempts := 0, lastLogin := some now },
        ?_, rfl, rfl, by simp⟩
      simp [login, lockGate, hact, hlock, hu, hnotfut, hpw2]

/-- Witness for C2 at a concrete expired-lock account. -/
theorem login_lock_expiry_reset_witness :
    login (some
        { id := "i2", name := "n2", email := "e2@f.co",
          password := BcryptStr.digest (BcryptStr.raw "pw123456") 3,
          role := Role.editor, isActive := true, lastLogin := some 5,
          loginAttempts := 5, isLocked := true, lockedUntil := some 100 })
      "pw123456" 200 =
      (LoginOutcome.loginSuccess
        (generateAccessToken "i2" "e2@f.co" Role.editor 200)
        (generateRefreshToken "i2" "e2@f.co" Role.editor 200),
       some { id := "i2", name := "n2", email := "e2@f.co",
              password := BcryptStr.digest (BcryptStr.raw "pw123456") 3,
              role := Role.editor, isActive := true, lastLogin := some 200,
              loginAttempts := 0, isLocked := false, lockedUntil := none }) :=
  (login_lock_expiry_reset
    { id := "i2", name := "n2", email := "e2@f.co",
      password := BcryptStr.digest (BcryptStr.raw "pw123456") 3,
      role := Role.editor, isActive := true, lastLogin := some 5,
      loginAttempts := 5, isLocked := true, lockedUntil := some 100 }
    "pw123456" 200 100 rfl rfl rfl (by omega) (by decide)).1

/-! ## Pre-save password hashing hook (src/src/models/AdminUser.ts) -/

/-- A document about to be saved: the in-memory account record together
with the set of paths modified since it was loaded (isModified). -/
structure AdminDoc where
  account : AdminAccount
  modifiedPaths : List String
deriving DecidableEq, Repr

/-- adminUserSchema.pre("save"): hash the password field with a fresh
salt exactly when the password path was modified by this write, then
persist the document. -/
def saveAdmin (doc : AdminDoc) (salt : Nat) : AdminAccount :=
  if doc.modifiedPaths.contains "password" then
    { doc.account with password := BcryptStr.digest doc.account.password salt }
  else doc.account

lemma lockGate_inr_password (a a2 : AdminAccount) (now : Nat)
    (h : lockGate a now = Sum.inr a2) : a2.password = a.password := by
  simp only [lockGate] at h
  repeat' split at h
  all_goals cases h
  all_goals rfl

/-- Every save performed by the login handler leaves the stored password
digest unchanged (the handler only mutates counters, lock fields and
lastLogin). -/
lemma login_preserves_password (a a1 : AdminAccount) (pw : String) (now : Nat)
    (h : (login (some a) pw now).2 = some a1) : a1.password = a.password := by
  simp only [login] at h
  by_cases hact : a.isActive = false
  · simp [hact] at h
    rw [← h]
  · rw [if_neg hact] at h
    cases hgate : lockGate a now with
    | inl out =>
        rw [hgate] at h
        simp at h
        rw [← h]
    | inr a2 =>
        rw [hgate] at h
        have hp2 := lockGate_inr_password a a2 now hgate
        by_cases hpw : bcryptCompare pw a2.password = false
        · by_cases hth : a2.loginAttempts + 1 ≥ LOCK_LIMIT
          · simp [hpw, hth] at h
            rw [← h]
            exact hp2
          · simp [hpw, hth] at h
            rw [← h]
            exact hp2
        · simp [hpw] at h
          rw [← h]
          exact hp2

/-- C9: the pre-save hook re-hashes the password field if and only if
the password path was modified by the current write, and every account
save performed by the login flow (attempt counters, lock fields,
lastLogin) leaves the stored digest unchanged. -/
theorem password_hashed_iff_modified :
    (∀ (doc : AdminDoc) (salt : Nat),
        (saveAdmin doc salt).password =
          if doc.modifiedPaths.contains "password"
          then BcryptStr.digest doc.account.password salt
          else doc.account.password)
    ∧ (∀ (a a1 : AdminAccount) (pw : String) (now : Nat),
        (login (some a) pw now).2 = some a1 → a1.password = a.password) := by
  constructor
  · intro doc salt
    by_cases h : "password" ∈ doc.modifiedPaths
    · simp [saveAdmin, h]
    · simp [saveAdmin, h]
  · exact login_preserves_password

/-- Witness for C9: a failed-login save (only loginAttempts changed)
leaves the digest untouched, and a modified password is re-hashed. -/
theorem password_hashed_iff_modified_witness :
    ((saveAdmin
        ⟨{ id := "i3", name := "n3", email := "e3@f.co",
           password := BcryptStr.digest (BcryptStr.raw "secret99") 2,
           role := Role.viewer, isActive := true, lastLogin := none,
           loginAttempts := 1, isLocked := false, lockedUntil := none },
         ["loginAttempts"]⟩ 9).password
      = BcryptStr.digest (BcryptStr.raw "secret99") 2)
    ∧ ((saveAdmin
        ⟨{ id := "i3", name := "n3", email := "e3@f.co",
           password := BcryptStr.raw "newpass1",
           role := Role.viewer, isActive := true, lastLogin := none,
           loginAttempts := 0, isLocked := false, lockedUntil := none },
         ["password"]⟩ 9).password
      = BcryptStr.digest (BcryptStr.raw "newpass1") 9)
    ∧ ({ id := "i3", name := "n3", email := "e3@f.co",
         password := BcryptStr.digest (BcryptStr.raw "secret99") 2,
         role := Role.viewer, isActive := true, lastLogin := none,
         loginAttempts := 1, isLocked := false,
         lockedUntil := none : AdminAccount }.password
      = BcryptStr.digest (BcryptStr.raw "secret99") 2) := by
  refine ⟨?_, ?_, ?_⟩
  · have h := password_hashed_iff_modified.1
      ⟨{ id := "i3", name := "n3", email := "e3@f.co",
         password := BcryptStr.digest (BcryptStr.raw "secret99") 2,
         role := Role.viewer, isActive := true, lastLogin := none,
         loginAttempts := 1, isLocked := false, lockedUntil := none },
       ["loginAttempts"]⟩ 9
    simpa using h
  · have h := password_hashed_iff_modified.1
      ⟨{ id := "i3", name := "n3", email := "e3@f.co",
         password := BcryptStr.raw "newpass1",
         role := Role.viewer, isActive := true, lastLogin := none,
         loginAttempts := 0, isLocked := false, lockedUntil := none },
       ["password"]⟩ 9
    simpa using h
  · exact password_hashed_iff_modified.2
      { id := "i3", name := "n3", email := "e3@f.co",
        password := BcryptStr.digest (BcryptStr.raw "secret99") 2,
        role := Role.viewer, isActive := true, lastLogin := none,
        loginAttempts := 0, isLocked := false, lockedUntil := none }
      { id := "i3", name := "n3", email := "e3@f.co",
        password := BcryptStr.digest (BcryptStr.raw "secret99") 2,
        role := Role.viewer, isActive := true, lastLogin := none,
        loginAttempts := 1, isLocked := false, lockedUntil := none }
      "wrongpwd" 0 (by decide)

/-! ## Refresh route (router.post("/refresh") in src/src/middleware/auth.ts) -/

/-- AdminUser.findById. -/
def findById (store : List AdminAccount) (adminId : String) : Option AdminAccount :=
  store.find? (fun a => a.id == adminId)

/-- Outcome of a refresh request after validation. -/
inductive RefreshOutcome where
  | invalidToken
  | notFoundOrInactive
  | refreshed (accessToken : Jwt)
deriving DecidableEq, Repr

/-- HTTP status for each refresh outcome. -/
def RefreshOutcome.status : RefreshOutcome → Nat
  | RefreshOutcome.invalidToken => 401
  | RefreshOutcome.notFoundOrInactive => 403
  | RefreshOutcome.refreshed _ => 200

/-- The refresh handler body after validation: verify the refresh token,
re-check that the account still exists and is active, and only then
issue a new access token. -/
def refreshHandler (store : List AdminAccount) (token : Jwt) (now : Nat) :
    RefreshOutcome :=
  match verifyRefreshToken token now with
  | none => RefreshOutcome.invalidToken
  | some payload =>
    match findById store payload.adminId with
    | none => RefreshOutcome.notFoundOrInactive
    | some a =>
      if a.isActive = false then RefreshOutcome.notFoundOrInactive
      else RefreshOutcome.refreshed (generateAccessToken a.id a.email a.role now)

/-- C8: a refresh request whose token verifies but whose account is gone
or inactive is rejected with 403 and no new access token is issued. -/
theorem refresh_rejects_missing_or_inactive (store : List AdminAccount)
    (t : Jwt) (now : Nat) (payload : AdminAuthPayload)
    (hver : verifyRefreshToken t now = some payload)
    (hacct : findById store payload.adminId = none
             ∨ ∃ a, findById store payload.adminId = some a ∧ a.isActive = false) :
    refreshHandler store t now = RefreshOutcome.notFoundOrInactive
    ∧ (refreshHandler store t now).status = 403
    ∧ ∀ tok, refreshHandler store t now ≠ RefreshOutcome.refreshed tok := by
  have hmain : refreshHandler store t now = RefreshOutcome.notFoundOrInactive := by
    rcases hacct with hgone | ⟨a, hfound, hinact⟩
    · simp [refreshHandler, hver, hgone]
    · simp [refreshHandler, hver, hfound, hinact]
  refine ⟨hmain, ?_, ?_⟩
  · rw [hmain]
    rfl
  · intro tok
    rw [hmain]
    simp

/-- Witness for C8: a still-valid refresh token for an account that was
deleted from the store. -/
theorem refresh_rejects_missing_or_inactive_witness :
    refreshHandler [] (generateRefreshToken "idZ" "z@z.co" Role.admin 0) 5
      = RefreshOutcome.notFoundOrInactive :=
  (refresh_rejects_missing_or_inactive []
    (generateRefreshToken "idZ" "z@z.co" Role.admin 0) 5
    ⟨"idZ", "z@z.co", Role.admin⟩ (by decide) (Or.inl rfl)).1

/-! ## Google OAuth route (router.post("/google") in src/src/middleware/auth.ts) -/

/-- AdminUser.findOne by email. -/
def findByEmail (store : List AdminAccount) (email : String) : Option AdminAccount :=
  store.find? (fun a => a.email == email)

/-- Persisting a fetched document: the record with the same id is
replaced by the updated in-memory state. -/
def updateById (store : List AdminAccount) (a1 : AdminAccount) : List AdminAccount :=
  store.map (fun a => if a.id == a1.id then a1 else a)

/-- Outcome of a Google OAuth request with a verified identity payload
carrying an email (the 400/401 token failures happen earlier and carry
no account logic). -/
inductive GoogleOutcome where
  | notWhitelisted
  | accountInactive
  | success (accessToken refreshToken : Jwt)
deriving DecidableEq, Repr

/-- HTTP status for each OAuth outcome. -/
def GoogleOutcome.status : GoogleOutcome → Nat
  | GoogleOutcome.notWhitelisted => 403
  | GoogleOutcome.accountInactive => 403
  | GoogleOutcome.success _ _ => 200

/-- Tail of the google handler once an account record is in hand: only
isActive is checked (never isLocked or lockedUntil); on success
lastLogin is set and loginAttempts reset before tokens are issued. -/
def googleLoginTail (store : List AdminAccount) (a : AdminAccount) (now : Nat) :
    GoogleOutcome × List AdminAccount :=
  if a.isActive = false then (GoogleOutcome.accountInactive, store)
  else
    (GoogleOutcome.success (generateAccessToken a.id a.email a.role now)
                           (generateRefreshToken a.id a.email a.role now),
     updateById store { a with lastLogin := some now, loginAttempts := 0 })

/-- The google handler body for a verified identity with the given
email: an unknown email must be allow-listed, in which case a new admin
account is created (its random password hashed by the pre-save hook) and
saved before the common tail runs. -/
def googleLogin (allowList : List String) (store : List AdminAccount)
    (email : String) (name? : Option String) (now : Nat) (newId rnd : String)
    (salt : Nat) : GoogleOutcome × List AdminAccount :=
  match findByEmail store email with
  | some a => googleLoginTail store a now
  | none =>
    if allowList.contains email = false then (GoogleOutcome.notWhitelisted, store)
    else
      let created : AdminAccount :=
        { id := newId, name := name?.getD "Google User", email := email,
          password := BcryptStr.digest (BcryptStr.raw ("google-oauth-" ++ rnd)) salt,
          role := Role.admin, isActive := true, lastLogin := none,
          loginAttempts := 0, isLocked := false, lockedUntil := none }
      googleLoginTail (store ++ [created]) created now

lemma updateById_append (store : List AdminAccount) (created a1 : AdminAccount)
    (hid : created.id = a1.id) (hfresh : ∀ a ∈ store, a.id ≠ a1.id) :
    updateById (store ++ [created]) a1 = store ++ [a1] := by
  unfold updateById
  rw [List.map_append]
  refine congrArg₂ List.append ?_ ?_
  · have hmap : ∀ a ∈ store, (if a.id == a1.id then a1 else a) = a := by
      intro a ha
      simp [hfresh a ha]
    calc store.map (fun a => if a.id == a1.id then a1 else a)
        = store.map id := List.map_congr_left hmap
      _ = store := List.map_id store
  · simp [hid]

/-- C7: a verified Google identity whose email has no local account is
rejected 403 with the store unchanged when the email is not in the
allow-list, and otherwise exactly one new account is created, with role
admin and isActive = true. -/
theorem oauth_new_email_allowlist (allowList : List String)
    (store : List AdminAccount) (email : String) (name? : Option String)
    (now : Nat) (newId rnd : String) (salt : Nat)
    (hnone : findByEmail store email = none)
    (hfresh : ∀ a ∈ store, a.id ≠ newId) :
    (allowList.contains email = false →
      googleLogin allowList store email name? now newId rnd salt
        = (GoogleOutcome.notWhitelisted, store)
      ∧ GoogleOutcome.status GoogleOutcome.notWhitelisted = 403)
    ∧ (allowList.contains email = true →
      ∃ acct tok1 tok2,
        googleLogin allowList store email name? now newId rnd salt
          = (GoogleOutcome.success tok1 tok2, store ++ [acct])
        ∧ acct.role = Role.admin ∧ acct.isActive = true ∧ acct.email = email
        ∧ ((store ++ [acct]).filter (fun a => a.email == email)).length = 1) := by
  constructor
  · intro hno
    have hno2 : email ∉ allowList := by
      simpa using hno
    exact ⟨by simp [googleLogin, hnone, hno2], rfl⟩
  · intro hyes
    have hyes2 : email ∈ allowList := by
      simpa using hyes
    have hemails : ∀ a ∈ store, ¬ (a.email == email) = true := by
      rw [← List.find?_eq_none]
      exact hnone
    refine ⟨{ id := newId, name := name?.getD "Google User", email := email,
              password := BcryptStr.digest
                (BcryptStr.raw ("google-oauth-" ++ rnd)) salt,
              role := Role.admin, isActive := true, lastLogin := some now,
              loginAttempts := 0, isLocked := false, lockedUntil := none },
            generateAccessToken newId email Role.admin now,
            generateRefreshToken newId email Role.admin now, ?_, rfl, rfl, rfl, ?_⟩
    · have hupd := updateById_append store
        { id := newId, name := name?.getD "Google User", email := email,
          password := BcryptStr.digest (BcryptStr.raw ("google-oauth-" ++ rnd)) salt,
          role := Role.admin, isActive := true, lastLogin := none,
          loginAttempts := 0, isLocked := false, lockedUntil := none }
        { id := newId, name := name?.getD "Google User", email := email,
          password := BcryptStr.digest (BcryptStr.raw ("google-oauth-" ++ rnd)) salt,
          role := Role.admin, isActive := true, lastLogin := some now,
          loginAttempts := 0, isLocked := false, lockedUntil := none }
        rfl (by intro a ha; exact hfresh a ha)
      simp only [googleLogin, hnone, googleLoginTail]
      simp [hyes2, hupd]
    · rw [List.filter_append]
      have hstore : store.filter (fun a => a.email == email) = [] := by
        rw [List.filter_eq_nil_iff]
        exact hemails
      rw [hstore]
      simp

/-- Witness for C7 at a concrete empty store and both allow-list cases. -/
theorem oauth_new_email_allowlist_witness :
    (googleLogin [] [] "new@x.co" none 7 "idN" "r4nd" 3
        = (GoogleOutcome.notWhitelisted, [])
      ∧ GoogleOutcome.status GoogleOutcome.notWhitelisted = 403)
    ∧ (∃ acct tok1 tok2,
        googleLogin ["ok@x.co"] [] "ok@x.co" none 7 "idN" "r4nd" 3
          = (GoogleOutcome.success tok1 tok2, [] ++ [acct])
        ∧ acct.role = Role.admin ∧ acct.isActive = true ∧ acct.email = "ok@x.co"
        ∧ (([] ++ [acct]).filter
            (fun a : AdminAccount => a.email == "ok@x.co")).length = 1) :=
  ⟨(oauth_new_email_allowlist [] [] "new@x.co" none 7 "idN" "r4nd" 3 rfl
      (by intro a ha; cases ha)).1 rfl,
   (oauth_new_email_allowlist ["ok@x.co"] [] "ok@x.co" none 7 "idN" "r4nd" 3 rfl
      (by intro a ha; cases ha)).2 (by decide)⟩

/-- C10 (implicit): a currently locked but active account logs in
through the Google OAuth path anyway: the handler checks only isActive,
resets loginAttempts to 0, leaves isLocked and lockedUntil unchanged,
and issues both tokens, so the password lockout does not apply here. -/
theorem oauth_bypasses_lockout (allowList : List String)
    (store : List AdminAccount) (email : String) (name? : Option String)
    (now : Nat) (newId rnd : String) (salt : Nat) (a : AdminAccount) (u : Nat)
    (hfind : findByEmail store email = some a)
    (hact : a.isActive = true) (hlock : a.isLocked = true)
    (hu : a.lockedUntil = some u) (hfut : now < u) :
    googleLogin allowList store email name? now newId rnd salt
      = (GoogleOutcome.success (generateAccessToken a.id a.email a.role now)
                               (generateRefreshToken a.id a.email a.role now),
         updateById store { a with lastLogin := some now, loginAttempts := 0 })
    ∧ ({ a with lastLogin := some now, loginAttempts := 0 }).loginAttempts = 0
    ∧ ({ a with lastLogin := some now, loginAttempts := 0 }).isLocked = true
    ∧ ({ a with lastLogin := some now, loginAttempts := 0 }).lockedUntil = some u := by
  refine ⟨?_, rfl, hlock, hu⟩
  simp [googleLogin, hfind, googleLoginTail, hact]

/-- Witness for C10 at a concrete locked account. -/
theorem oauth_bypasses_lockout_witness :
    googleLogin ["locked@x.co"]
        [{ id := "iL", name := "nL", email := "locked@x.co",
           password := BcryptStr.digest (BcryptStr.raw "pwpwpwpw") 4,
           role := Role.admin, isActive := true, lastLogin := none,
           loginAttempts := 5, isLocked := true, lockedUntil := some 1000 }]
        "locked@x.co" none 10 "idX" "rr" 1
      = (GoogleOutcome.success
          (generateAccessToken "iL" "locked@x.co" Role.admin 10)
          (generateRefreshToken "iL" "locked@x.co" Role.admin 10),
         updateById
          [{ id := "iL", name := "nL", email := "locked@x.co",
             password := BcryptStr.digest (BcryptStr.raw "pwpwpwpw") 4,
             role := Role.admin, isActive := true, lastLogin := none,
             loginAttempts := 5, isLocked := true, lockedUntil := some 1000 }]
          { id := "iL", name := "nL", email := "locked@x.co",
            password := BcryptStr.digest (BcryptStr.raw "pwpwpwpw") 4,
            role := Role.admin, isActive := true, lastLogin := some 10,
            loginAttempts := 0, isLocked := true, lockedUntil := some 1000 }) :=
  (oauth_bypasses_lockout ["locked@x.co"]
    [{ id := "iL", name := "nL", email := "locked@x.co",
       password := BcryptStr.digest (BcryptStr.raw "pwpwpwpw") 4,
       role := Role.admin, isActive := true, lastLogin := none,
       loginAttempts := 5, isLocked := true, lockedUntil := some 1000 }]
    "locked@x.co" none 10 "idX" "rr" 1
    { id := "iL", name := "nL", email := "locked@x.co",
      password := BcryptStr.digest (BcryptStr.raw "pwpwpwpw") 4,
      role := Role.admin, isActive := true, lastLogin := none,
      loginAttempts := 5, isLocked := true, lockedUntil := some 1000 }
    1000 (by decide) rfl rfl rfl (by decide)).1

end FurnitureMart
